import Mathlib

/-!
Verification of the client-side UI logic of the bug-buster-ai repository.

The embedding translates the handlers of `src/pages/Analyze.tsx` (the Analyze
page and the Dashboard page), the sign-out handler of `src/components/Header.tsx`,
and the default configuration of the `Dropzone` component of
`src/components/ui/code-block.tsx` into pure Lean functions.  React state is a
record (`AnalyzeState`); a handler maps a state (plus its inputs and, where the
source has a try/catch, an explicit outcome) to the new state together with the
list of toast notifications it emits.  Timers carry their millisecond durations
as data.
-/

namespace BugBuster

/-- Toast variant: the UI library distinguishes the default style from the
destructive (error) style, matching the `variant: "destructive"` option. -/
inductive ToastVariant
  | std
  | destructive
deriving DecidableEq

/-- A toast notification as passed to the `toast({...})` hook. -/
structure Toast where
  title : String
  description : String
  variant : ToastVariant
deriving DecidableEq

/-- The two fields of a browser `File` object that the handlers read. -/
structure FileInfo where
  name : String
  size : Nat
deriving DecidableEq

/-- Severity of a reported problem, from the `AnalysisResult` interface
(`type: 'critical' | 'warning' | 'info'`). -/
inductive ProblemType
  | critical
  | warning
  | info
deriving DecidableEq

/-- One entry of `AnalysisResult.problems` (Analyze.tsx lines 31-37). -/
structure Problem where
  type : ProblemType
  title : String
  description : String
  line : Option Nat
  fix : String
deriving DecidableEq

/-- The `AnalysisResult` interface of Analyze.tsx (lines 29-43). -/
structure AnalysisResult where
  summary : String
  problems : List Problem
  fixes : String
  confidence : Nat
  securityIssues : Nat
  performanceIssues : Nat
  bugCount : Nat
deriving DecidableEq

/-- The local React state of the `Analyze` component (Analyze.tsx lines 50-55). -/
structure AnalyzeState where
  code : String
  language : String
  isAnalyzing : Bool
  progress : Nat
  analysisResult : Option AnalysisResult
  uploadedFile : Option FileInfo
deriving DecidableEq

/-- The `allowedTypes` array of `handleFileUpload` (Analyze.tsx line 74). -/
def allowedTypes : List String :=
  [".js", ".ts", ".jsx", ".tsx", ".py", ".java", ".cpp", ".c", ".php", ".rb", ".go", ".rs"]

/-- JavaScript `str.split('.')` on the character list of the string: splits at
every dot, keeping empty segments, and yields `[[]]` on the empty string,
exactly as `''.split('.')` yields `[""]`. -/
def splitOnDot : List Char → List (List Char)
  | [] => [[]]
  | c :: cs =>
    if c = '.' then [] :: splitOnDot cs
    else
      match splitOnDot cs with
      | [] => [[c]]
      | s :: ss => (c :: s) :: ss

/-- `file.name.split('.').pop()?.toLowerCase()` (Analyze.tsx line 75) without
the leading dot: the lowercased last dot-separated segment of the file name. -/
def jsExtensionCore (name : String) : List Char :=
  ((splitOnDot name.data).reverse.headD []).map Char.toLower

/-- The extension computed by `handleFileUpload` (Analyze.tsx line 75):
`'.' + file.name.split('.').pop()?.toLowerCase()` — the dot followed by the
lowercased last dot-separated segment of the file name. -/
def jsFileExtension (name : String) : String :=
  String.mk ('.' :: jsExtensionCore name)

/-- JavaScript `String.prototype.trim`: strip whitespace from both ends
(structural model over the character list). -/
def jsTrim (s : String) : String :=
  String.mk (((s.data.dropWhile Char.isWhitespace).reverse.dropWhile
    Char.isWhitespace).reverse)

/-- The `langMap` of `handleFileUpload` (Analyze.tsx lines 106-119), mapping a
bare extension to the auto-detected language. -/
def langMap : List (String × String) :=
  [("js", "javascript"), ("jsx", "javascript"),
   ("ts", "typescript"), ("tsx", "typescript"),
   ("py", "python"), ("java", "java"), ("cpp", "cpp"), ("c", "c"),
   ("php", "php"), ("rb", "ruby"), ("go", "go"), ("rs", "rust")]

/-- The toast shown for a disallowed extension (Analyze.tsx lines 78-82). -/
def invalidFileTypeToast : Toast :=
  ⟨"Invalid file type",
   "Please upload a supported code file (.js, .ts, .py, .java, etc.)",
   ToastVariant.destructive⟩

/-- The toast shown for an oversized file (Analyze.tsx lines 88-92). -/
def fileTooLargeToast : Toast :=
  ⟨"File too large", "Please upload a file smaller than 10MB.",
   ToastVariant.destructive⟩

/-- `handleFileUpload` (Analyze.tsx lines 69-125).  The chosen file and the text
content delivered to the `FileReader.onload` callback are explicit inputs; the
function returns the new component state and the toasts it emitted.  On the
accept path the handler stores the file, stores the content as the code, and
sets the language when `langMap` has an entry for the bare extension. -/
def handleFileUpload (st : AnalyzeState) (file : FileInfo) (content : String) :
    AnalyzeState × List Toast :=
  let fileExtension := jsFileExtension file.name
  if fileExtension ∉ allowedTypes then
    (st, [invalidFileTypeToast])
  else if file.size > 10 * 1024 * 1024 then
    (st, [fileTooLargeToast])
  else
    let st1 := { st with uploadedFile := some file }
    let st2 := { st1 with code := content }
    let ext := String.mk (jsExtensionCore file.name)
    let st3 :=
      match langMap.lookup ext with
      | some lang => { st2 with language := lang }
      | none => st2
    (st3, [])

/-- The `progressSteps` array of `simulateAnalysis` (Analyze.tsx lines 129-135):
progress value paired with its status message. -/
def analysisProgressSteps : List (Nat × String) :=
  [(20, "Parsing code structure..."),
   (40, "Analyzing for bugs..."),
   (60, "Checking security vulnerabilities..."),
   (80, "Generating fixes..."),
   (100, "Analysis complete!")]

/-- The successive values assigned to the `progress` state by the loop of
`simulateAnalysis` (Analyze.tsx lines 137-140). -/
def simulateAnalysisProgressValues : List Nat :=
  analysisProgressSteps.map Prod.fst

/-- The timed update events of one `simulateAnalysis` run: each loop iteration
awaits a `setTimeout(resolve, 800)` and then sets the progress, so each event is
the pair (timer duration in ms, progress value written). -/
def simulateAnalysisEvents : List (Nat × Nat) :=
  simulateAnalysisProgressValues.map (fun p => (800, p))

/-- The `fixes` text of the mocked result (Analyze.tsx lines 168-205), the
template-literal string verbatim (braces, quotes and backticks written as hex
escapes). -/
def mockFixesText : String :=
  "// Fixed code with improvements:\n"
  ++ "import React, \x7b useState, useEffect, memo \x7d from \x27react\x27;\n"
  ++ "\n"
  ++ "const UserProfile = memo((\x7b userId \x7d) => \x7b\n"
  ++ "  const [user, setUser] = useState(null);\n"
  ++ "  const [loading, setLoading] = useState(false);\n"
  ++ "\n"
  ++ "  useEffect(() => \x7b\n"
  ++ "    let isMounted = true;\n"
  ++ "    setLoading(true);\n"
  ++ "    \n"
  ++ "    fetch(\x60/api/users/$\x7buserId\x7d\x60)\n"
  ++ "      .then(response => response.json())\n"
  ++ "      .then(data => \x7b\n"
  ++ "        if (isMounted) \x7b\n"
  ++ "          setUser(data);\n"
  ++ "          setLoading(false);\n"
  ++ "        \x7d\n"
  ++ "      \x7d)\n"
  ++ "      .catch(err => \x7b\n"
  ++ "        if (isMounted) \x7b\n"
  ++ "          console.error(\x27Failed to fetch user:\x27, err);\n"
  ++ "          setLoading(false);\n"
  ++ "        \x7d\n"
  ++ "      \x7d);\n"
  ++ "\n"
  ++ "    return () => \x7b\n"
  ++ "      isMounted = false;\n"
  ++ "    \x7d;\n"
  ++ "  \x7d, [userId]);\n"
  ++ "\n"
  ++ "  return (\n"
  ++ "    <div>\n"
  ++ "      <h1>\x7buser?.name || \x27Unknown User\x27\x7d</h1>\n"
  ++ "      \x7bloading && <p>Loading...</p>\x7d\n"
  ++ "    </div>\n"
  ++ "  );\n"
  ++ "\x7d);"

/-- The object literal returned by `simulateAnalysis` (Analyze.tsx lines 143-210). -/
def mockAnalysisResult : AnalysisResult :=
  { summary := "Found 3 issues: 1 critical security vulnerability, 1 performance issue, and 1 potential bug. Recommended fixes provided."
    problems :=
      [⟨ProblemType.critical, "XSS Vulnerability",
        "Unsafe use of dangerouslySetInnerHTML with user data", some 23,
        "Use safe text rendering instead of HTML injection"⟩,
       ⟨ProblemType.warning, "Memory Leak Risk",
        "useEffect missing cleanup function", some 15,
        "Add cleanup function and dependency array"⟩,
       ⟨ProblemType.info, "Performance Optimization",
        "Consider using React.memo for this component", some 8,
        "Wrap component with React.memo to prevent unnecessary re-renders"⟩]
    fixes := mockFixesText
    confidence := 94
    securityIssues := 1
    performanceIssues := 1
    bugCount := 1 }

/-- `simulateAnalysis` takes no arguments in the source; its embedding maps the
(unit) invocation to the progress-update events it performs and the result it
returns. -/
def simulateAnalysis : Unit → List (Nat × Nat) × AnalysisResult :=
  fun _ => (simulateAnalysisEvents, mockAnalysisResult)

/-- The toast shown when the code input is blank (Analyze.tsx lines 215-219). -/
def noCodeToast : Toast :=
  ⟨"No code to analyze", "Please paste code or upload a file first.",
   ToastVariant.destructive⟩

/-- The toast shown when the analysis step throws (Analyze.tsx lines 243-247). -/
def analysisFailedToast : Toast :=
  ⟨"Analysis failed", "Something went wrong. Please try again.",
   ToastVariant.destructive⟩

/-- The success toast of `handleAnalyze` (Analyze.tsx lines 238-241), whose
description interpolates the result counts. -/
def analysisCompleteToast (r : AnalysisResult) : Toast :=
  ⟨"Analysis complete!",
   "Found " ++ toString r.problems.length ++ " issues with "
     ++ toString r.confidence ++ "% confidence.",
   ToastVariant.std⟩

/-- Applying a run of progress updates to the state (the loop body
`setProgress(step.progress)`). -/
def runProgress (st : AnalyzeState) (ps : List Nat) : AnalyzeState :=
  ps.foldl (fun s p => { s with progress := p }) st

/-- `handleAnalyze` (Analyze.tsx lines 213-251).  `outcome = none` means
`simulateAnalysis` returned normally; `outcome = some k` means it threw after
performing `k` of its progress updates (the try/catch path).  The `finally`
clause clears `isAnalyzing` on both paths. -/
def handleAnalyze (st : AnalyzeState) (outcome : Option Nat) :
    AnalyzeState × List Toast :=
  if jsTrim st.code = "" then
    (st, [noCodeToast])
  else
    let st1 := { st with isAnalyzing := true, progress := 0, analysisResult := none }
    match outcome with
    | some k =>
      let st2 := runProgress st1 (simulateAnalysisProgressValues.take k)
      ({ st2 with isAnalyzing := false }, [analysisFailedToast])
    | none =>
      let st2 := runProgress st1 simulateAnalysisProgressValues
      let st3 := { st2 with analysisResult := some mockAnalysisResult }
      ({ st3 with isAnalyzing := false }, [analysisCompleteToast mockAnalysisResult])

/-- The toast emitted by `copyToClipboard` (Analyze.tsx lines 253-259); the
copied text does not influence the notification. -/
def copyToClipboard (_text : String) : List Toast :=
  [⟨"Copied to clipboard", "Text has been copied to your clipboard.",
    ToastVariant.std⟩]

/-- `handleSignOut` of the Header (Header.tsx lines 20-35): the flag tells
whether `signOut()` threw. -/
def handleSignOut (signOutThrew : Bool) : List Toast :=
  if signOutThrew then
    [⟨"Error signing out", "Something went wrong. Please try again.",
      ToastVariant.destructive⟩]
  else
    [⟨"Signed out successfully", "You\x27ve been signed out of your account.",
      ToastVariant.std⟩]

/-- The results pane of the Analyze page (Analyze.tsx lines 405-411): when
`analysisResult` is non-null it renders a tab list with exactly these three
triggers, otherwise no tabs. -/
def analyzeResultsTabs (st : AnalyzeState) : List String :=
  match st.analysisResult with
  | some _ => ["Summary", "Issues", "Fixes"]
  | none => []

/-- The default `accept` record of the `Dropzone` component
(code-block.tsx lines 114-117): MIME key paired with its extension list. -/
def dropzoneDefaultAccept : List (String × List String) :=
  [("text/*", [".js", ".ts", ".jsx", ".tsx", ".py", ".java", ".cpp", ".c",
               ".php", ".rb", ".go", ".rs"]),
   ("application/pdf", [".pdf"])]

/-- All extensions the Dropzone default configuration accepts. -/
def dropzoneDefaultAcceptExts : List String :=
  (dropzoneDefaultAccept.map Prod.snd).flatten

/-- The `Analysis` status enumeration of the Dashboard (Analyze.tsx, Dashboard
section, `status: 'completed' | 'analyzing' | 'failed'`). -/
inductive AnalysisStatus
  | completed
  | analyzing
  | failed
deriving DecidableEq

/-- The `Analysis` history record of the Dashboard. -/
structure Analysis where
  id : String
  title : String
  language : String
  status : AnalysisStatus
  createdAt : String
  issuesFound : Nat
  confidence : Nat
deriving DecidableEq

/-- The `mockAnalyses` list of the Dashboard. -/
def mockAnalyses : List Analysis :=
  [⟨"1", "UserProfile.tsx", "TypeScript", AnalysisStatus.completed,
    "2024-01-15T10:30:00Z", 4, 95⟩,
   ⟨"2", "auth-service.js", "JavaScript", AnalysisStatus.completed,
    "2024-01-14T15:45:00Z", 2, 87⟩,
   ⟨"3", "database-utils.py", "Python", AnalysisStatus.analyzing,
    "2024-01-14T09:20:00Z", 0, 0⟩]

/-- JavaScript `Math.round(sum / len)` on natural inputs: `none` stands for the
NaN produced when `len = 0`; otherwise rounding half away from zero, which for
nonnegative values is the floor of the quotient plus one half. -/
def jsMathRoundDiv? (sum len : Nat) : Option Nat :=
  if len = 0 then none else some ((2 * sum + len) / (2 * len))

/-- The average-confidence statistic of the Dashboard
(`Math.round(analyses.reduce((sum, a) => sum + a.confidence, 0) / analyses.length) || 0`):
the `|| 0` turns the NaN of the empty case into 0. -/
def dashboardAvgConfidence (analyses : List Analysis) : Nat :=
  (jsMathRoundDiv? (analyses.map (fun a => a.confidence)).sum analyses.length).getD 0

/-- The destructive-variant toast titles the source can emit, across
`handleFileUpload`, `handleAnalyze` and `handleSignOut`. -/
def destructiveTitles : List String :=
  ["Invalid file type", "File too large", "No code to analyze",
   "Analysis failed", "Error signing out"]

end BugBuster

namespace BugBuster

/-! ## Helper lemmas -/

/-- Running progress updates never touches the `analysisResult` field. -/
theorem runProgress_analysisResult (st : AnalyzeState) (l : List Nat) :
    (runProgress st l).analysisResult = st.analysisResult := by
  induction l generalizing st with
  | nil => rfl
  | cons p ps ih => simp [runProgress] at ih ⊢; exact ih _

/-- Running progress updates never touches the `isAnalyzing` field. -/
theorem runProgress_isAnalyzing (st : AnalyzeState) (l : List Nat) :
    (runProgress st l).isAnalyzing = st.isAnalyzing := by
  induction l generalizing st with
  | nil => rfl
  | cons p ps ih => simp [runProgress] at ih ⊢; exact ih _

/-- Arithmetic bridge: rounding half up over ℚ agrees with the natural-number
expression `(2 * s + n) / (2 * n)`. -/
theorem ratHalfUpKey (s n : Nat) (hn : n ≠ 0) :
    ((s : ℚ)) / (n : ℚ) + 1 / 2 = ((2 * s + n : ℕ) : ℚ) / ((2 * n : ℕ) : ℚ) := by
  have hq : ((n : ℚ)) ≠ 0 := by exact_mod_cast hn
  push_cast
  field_simp
  ring

/-! ## Claims -/

/-- C1 (counterexample): the claim says every file accepted by any file-input
component has one of the twelve code extensions, but the Dropzone default
configuration also accepts `.pdf`: the file `report.pdf` is matched by the
default accept record while its extension is not in `allowedTypes`. -/
theorem c1_counterexample :
    jsFileExtension "report.pdf" ∈ dropzoneDefaultAcceptExts ∧
    jsFileExtension "report.pdf" ∉ allowedTypes := by
  decide

/-- C1 (amended): the Analyze upload handler accepts a file only when its
computed (lowercased) extension is in the twelve-entry allow-list, while the
Dropzone default configuration accepts exactly those twelve extensions plus
`.pdf`. -/
theorem c1_extension_allowlists :
    (∀ (st : AnalyzeState) (f : FileInfo) (c : String),
        (handleFileUpload st f c).2 = [] → jsFileExtension f.name ∈ allowedTypes) ∧
    dropzoneDefaultAcceptExts = allowedTypes ++ [".pdf"] := by
  constructor
  · intro st f c h
    by_contra hmem
    simp [handleFileUpload, hmem] at h
  · decide

/-- C1 (witness): the accepted upload `main.py` indeed has an allow-listed
extension. -/
theorem c1_witness : jsFileExtension "main.py" ∈ allowedTypes :=
  c1_extension_allowlists.1 ⟨"", "javascript", false, 0, none, none⟩
    ⟨"main.py", 100⟩ "print(1)" (by decide)

/-- C2: uploading a file whose computed extension is not allow-listed emits
exactly the destructive toast titled "Invalid file type" and leaves the whole
component state (code, uploadedFile, language included) unchanged. -/
theorem c2_invalid_type_rejected :
    ∀ (st : AnalyzeState) (f : FileInfo) (c : String),
      jsFileExtension f.name ∉ allowedTypes →
      handleFileUpload st f c = (st, [invalidFileTypeToast]) ∧
      invalidFileTypeToast.title = "Invalid file type" ∧
      invalidFileTypeToast.variant = ToastVariant.destructive := by
  intro st f c h
  refine ⟨?_, rfl, rfl⟩
  simp [handleFileUpload, h]

/-- C2 (witness): uploading `virus.exe` is rejected with the invalid-file-type
toast and an unchanged state. -/
theorem c2_witness :
    handleFileUpload ⟨"old", "c", false, 0, none, none⟩ ⟨"virus.exe", 10⟩ "x"
        = (⟨"old", "c", false, 0, none, none⟩, [invalidFileTypeToast]) ∧
    invalidFileTypeToast.title = "Invalid file type" ∧
    invalidFileTypeToast.variant = ToastVariant.destructive :=
  c2_invalid_type_rejected ⟨"old", "c", false, 0, none, none⟩ ⟨"virus.exe", 10⟩ "x"
    (by decide)

/-- C3: for an allow-listed extension, a size strictly above 10 * 1024 * 1024
bytes emits exactly the "File too large" toast with the state unchanged, and a
size at or below the limit passes the size check (no toast at all is emitted,
the upload is accepted). -/
theorem c3_size_limit :
    ∀ (st : AnalyzeState) (f : FileInfo) (c : String),
      jsFileExtension f.name ∈ allowedTypes →
      (f.size > 10 * 1024 * 1024 →
        handleFileUpload st f c = (st, [fileTooLargeToast]) ∧
        fileTooLargeToast.title = "File too large") ∧
      (f.size ≤ 10 * 1024 * 1024 → (handleFileUpload st f c).2 = []) := by
  intro st f c hmem
  constructor
  · intro hsz
    refine ⟨?_, rfl⟩
    simp [handleFileUpload, hmem, hsz]
  · intro hsz
    simp [handleFileUpload, hmem, Nat.not_lt.mpr hsz]

/-- C3 (witness): a 10485761-byte `big.js` is rejected as too large while a
10485760-byte `ok.js` (exactly the limit) passes the size check. -/
theorem c3_witness :
    handleFileUpload ⟨"", "c", false, 0, none, none⟩ ⟨"big.js", 10485761⟩ "x"
        = (⟨"", "c", false, 0, none, none⟩, [fileTooLargeToast]) ∧
    (handleFileUpload ⟨"", "c", false, 0, none, none⟩ ⟨"ok.js", 10485760⟩ "x").2 = [] :=
  ⟨((c3_size_limit ⟨"", "c", false, 0, none, none⟩ ⟨"big.js", 10485761⟩ "x"
      (by decide)).1 (by decide)).1,
   (c3_size_limit ⟨"", "c", false, 0, none, none⟩ ⟨"ok.js", 10485760⟩ "x"
      (by decide)).2 (by decide)⟩

/-- C4 (counterexample): running the analysis with blank code emits a
destructive toast titled "No code to analyze", which is none of the three
notifications the claim allows. -/
theorem c4_counterexample :
    (handleAnalyze ⟨"", "javascript", false, 0, none, none⟩ none).2.map Toast.title
        = ["No code to analyze"] ∧
    (handleAnalyze ⟨"", "javascript", false, 0, none, none⟩ none).2.map Toast.variant
        = [ToastVariant.destructive] ∧
    "No code to analyze" ∉ ["Invalid file type", "File too large", "Analysis failed"] := by
  decide

/-- C4 (amended): across every toast-emitting handler of the source
(`handleFileUpload`, `handleAnalyze`, `handleSignOut`, `copyToClipboard`),
every destructive-variant notification is one of exactly five: invalid file
type, file too large, no code to analyze, analysis failed, error signing out. -/
theorem c4_destructive_toast_titles :
    (∀ (st : AnalyzeState) (f : FileInfo) (c : String) (t : Toast),
        t ∈ (handleFileUpload st f c).2 → t.variant = ToastVariant.destructive →
        t.title ∈ destructiveTitles) ∧
    (∀ (st : AnalyzeState) (o : Option Nat) (t : Toast),
        t ∈ (handleAnalyze st o).2 → t.variant = ToastVariant.destructive →
        t.title ∈ destructiveTitles) ∧
    (∀ (b : Bool) (t : Toast),
        t ∈ handleSignOut b → t.variant = ToastVariant.destructive →
        t.title ∈ destructiveTitles) ∧
    (∀ (s : String) (t : Toast),
        t ∈ copyToClipboard s → t.variant = ToastVariant.destructive →
        t.title ∈ destructiveTitles) := by
  refine ⟨?_, ?_, ?_, ?_⟩
  · intro st f c t ht _
    simp only [handleFileUpload] at ht
    split at ht
    · simp at ht; subst ht; decide
    · split at ht
      · simp at ht; subst ht; decide
      · simp at ht
  · intro st o t ht hv
    simp only [handleAnalyze] at ht
    split at ht
    · simp at ht; subst ht; decide
    · cases o with
      | some k => simp at ht; subst ht; decide
      | none =>
        simp at ht; subst ht
        exact absurd hv (by decide)
  · intro b t ht hv
    cases b with
    | true => simp [handleSignOut] at ht; subst ht; decide
    | false =>
      simp [handleSignOut] at ht; subst ht
      exact absurd hv (by decide)
  · intro s t ht hv
    simp [copyToClipboard] at ht; subst ht
    exact absurd hv (by decide)

/-- C4 (witness): the invalid-file-type toast emitted for `a.exe` and the
sign-out-error toast both carry titles from the five-title list. -/
theorem c4_witness :
    Toast.title invalidFileTypeToast ∈ destructiveTitles ∧
    ("Error signing out" : String) ∈ destructiveTitles :=
  ⟨c4_destructive_toast_titles.1 ⟨"", "c", false, 0, none, none⟩ ⟨"a.exe", 1⟩ "x"
      invalidFileTypeToast (by decide) (by decide),
   c4_destructive_toast_titles.2.2.1 true
      ⟨"Error signing out", "Something went wrong. Please try again.",
        ToastVariant.destructive⟩ (by decide) (by decide)⟩

/-- C5: one `simulateAnalysis` run performs exactly five progress updates, in
order 20, 40, 60, 80, 100, each preceded by an 800 ms timer; the written values
never decrease and the final one is 100. -/
theorem c5_progress_schedule :
    simulateAnalysisEvents.map Prod.snd = [20, 40, 60, 80, 100] ∧
    simulateAnalysisEvents.length = 5 ∧
    simulateAnalysisEvents.map Prod.fst = [800, 800, 800, 800, 800] ∧
    List.Chain' (· ≤ ·) (simulateAnalysisEvents.map Prod.snd) ∧
    (simulateAnalysisEvents.map Prod.snd).getLast? = some 100 := by
  refine ⟨rfl, rfl, rfl, ?_, rfl⟩
  have h : simulateAnalysisEvents.map Prod.snd = [20, 40, 60, 80, 100] := rfl
  rw [h, List.chain'_iff_pairwise]
  decide

/-- C6: on non-blank code, when the analysis step returns normally,
`handleAnalyze` stores the (non-null) mock result and the results pane renders
exactly the three tabs Summary, Issues, Fixes. -/
theorem c6_analysis_success_tabs :
    ∀ st : AnalyzeState, jsTrim st.code ≠ "" →
      (handleAnalyze st none).1.analysisResult = some mockAnalysisResult ∧
      analyzeResultsTabs (handleAnalyze st none).1 = ["Summary", "Issues", "Fixes"] ∧
      (analyzeResultsTabs (handleAnalyze st none).1).length = 3 := by
  intro st h
  refine ⟨?_, ?_, ?_⟩ <;>
    simp [handleAnalyze, h, runProgress, simulateAnalysisProgressValues,
      analysisProgressSteps, analyzeResultsTabs]

/-- C6 (witness): a successful run on the code "x" yields the stored result and
the three tabs. -/
theorem c6_witness :
    (handleAnalyze ⟨"x", "javascript", false, 0, none, none⟩ none).1.analysisResult
        = some mockAnalysisResult ∧
    analyzeResultsTabs (handleAnalyze ⟨"x", "javascript", false, 0, none, none⟩ none).1
        = ["Summary", "Issues", "Fixes"] ∧
    (analyzeResultsTabs
        (handleAnalyze ⟨"x", "javascript", false, 0, none, none⟩ none).1).length = 3 :=
  c6_analysis_success_tabs ⟨"x", "javascript", false, 0, none, none⟩ (by decide)

/-- C7: when the analysis step throws (after any number of progress updates),
`handleAnalyze` emits only the destructive "Analysis failed" toast,
`analysisResult` stays null (it was cleared at the start of the run), and the
finally clause leaves `isAnalyzing` false on the failure path as on the success
path. -/
theorem c7_failure_handling :
    ∀ (st : AnalyzeState) (k : Nat), jsTrim st.code ≠ "" →
      (handleAnalyze st (some k)).2 = [analysisFailedToast] ∧
      analysisFailedToast.title = "Analysis failed" ∧
      analysisFailedToast.variant = ToastVariant.destructive ∧
      (handleAnalyze st (some k)).1.analysisResult = none ∧
      (handleAnalyze st (some k)).1.isAnalyzing = false ∧
      (handleAnalyze st none).1.isAnalyzing = false := by
  intro st k h
  refine ⟨?_, rfl, rfl, ?_, ?_, ?_⟩ <;>
    simp [handleAnalyze, h, runProgress_analysisResult, runProgress_isAnalyzing]

/-- C7 (witness): a run on code "x" that throws after two progress updates shows
only the failure toast, keeps `analysisResult` null and ends not analyzing. -/
theorem c7_witness :
    (handleAnalyze ⟨"x", "javascript", false, 0, none, none⟩ (some 2)).2
        = [analysisFailedToast] ∧
    analysisFailedToast.title = "Analysis failed" ∧
    analysisFailedToast.variant = ToastVariant.destructive ∧
    (handleAnalyze ⟨"x", "javascript", false, 0, none, none⟩ (some 2)).1.analysisResult
        = none ∧
    (handleAnalyze ⟨"x", "javascript", false, 0, none, none⟩ (some 2)).1.isAnalyzing
        = false ∧
    (handleAnalyze ⟨"x", "javascript", false, 0, none, none⟩ none).1.isAnalyzing
        = false :=
  c7_failure_handling ⟨"x", "javascript", false, 0, none, none⟩ 2 (by decide)

/-- C8: `simulateAnalysis` is a constant function of its (unit) invocation, so
every call returns the identical events and result; in that result the counts
are consistent: securityIssues + performanceIssues + bugCount = 3 =
problems.length, the issue count printed in the summary text is exactly
problems.length, and confidence = 94 lies within 0..100 (it is a natural
number, so 0 ≤ confidence holds by type). -/
theorem c8_mock_result_invariants :
    simulateAnalysis () = (simulateAnalysisEvents, mockAnalysisResult) ∧
    mockAnalysisResult.securityIssues + mockAnalysisResult.performanceIssues
        + mockAnalysisResult.bugCount = 3 ∧
    mockAnalysisResult.problems.length = 3 ∧
    mockAnalysisResult.summary =
      "Found " ++ toString mockAnalysisResult.problems.length
        ++ " issues: 1 critical security vulnerability, 1 performance issue, and 1 potential bug. Recommended fixes provided." ∧
    mockAnalysisResult.confidence = 94 ∧
    mockAnalysisResult.confidence ≤ 100 := by
  refine ⟨rfl, rfl, rfl, by decide, rfl, by decide⟩

/-- C9: the language auto-detection map is total over the upload allow-list
(every allow-listed extension, minus its dot, has a `langMap` entry), so every
accepted upload sets the language to the mapped value; in particular both `js`
and `jsx` map to javascript. -/
theorem c9_language_autodetect :
    (∀ e ∈ allowedTypes, (langMap.lookup (String.mk e.data.tail)).isSome = true) ∧
    (∀ (st : AnalyzeState) (f : FileInfo) (c : String),
        (handleFileUpload st f c).2 = [] →
        ∃ lang, langMap.lookup (String.mk (jsExtensionCore f.name)) = some lang ∧
          (handleFileUpload st f c).1.language = lang) ∧
    (handleFileUpload ⟨"", "c", false, 0, none, none⟩ ⟨"a.js", 1⟩ "y").1.language
        = "javascript" ∧
    (handleFileUpload ⟨"", "c", false, 0, none, none⟩ ⟨"a.jsx", 1⟩ "y").1.language
        = "javascript" := by
  have hall : ∀ e ∈ allowedTypes,
      (langMap.lookup (String.mk e.data.tail)).isSome = true := by decide
  refine ⟨hall, ?_, by decide, by decide⟩
  intro st f c h
  by_cases hmem : jsFileExtension f.name ∈ allowedTypes
  · by_cases hsz : f.size > 10 * 1024 * 1024
    · exfalso
      simp [handleFileUpload, hmem, hsz] at h
    · have hsome : (langMap.lookup (String.mk (jsExtensionCore f.name))).isSome = true :=
        hall _ hmem
      obtain ⟨lang, hlang⟩ := Option.isSome_iff_exists.mp hsome
      refine ⟨lang, hlang, ?_⟩
      simp [handleFileUpload, hmem, hsz, hlang]
  · exfalso
    simp [handleFileUpload, hmem] at h

/-- C9 (witness): the map covers the `.js` entry of the allow-list, and the
accepted upload `App.tsx` sets the language to the mapped value. -/
theorem c9_witness :
    (langMap.lookup (String.mk (".js" : String).data.tail)).isSome = true ∧
    ∃ lang, langMap.lookup (String.mk (jsExtensionCore "App.tsx")) = some lang ∧
      (handleFileUpload ⟨"", "c", false, 0, none, none⟩ ⟨"App.tsx", 50⟩ "let x").1.language
        = lang :=
  ⟨c9_language_autodetect.1 ".js" (by decide),
   c9_language_autodetect.2.1 ⟨"", "c", false, 0, none, none⟩ ⟨"App.tsx", 50⟩ "let x"
     (by decide)⟩

/-- C10: the Dashboard average-confidence statistic is 0 on an empty history
(the NaN of the guarded division becomes 0 through the or-zero fallback), and on
every non-empty history it is the half-up rounded mean of the confidence
fields. -/
theorem c10_avg_confidence :
    dashboardAvgConfidence [] = 0 ∧
    ∀ l : List Analysis, l ≠ [] →
      dashboardAvgConfidence l =
        ⌊(((l.map fun a => a.confidence).sum : ℕ) : ℚ) / ((l.length : ℕ) : ℚ) + 1 / 2⌋₊ := by
  refine ⟨rfl, ?_⟩
  intro l hl
  have hn : l.length ≠ 0 := by simpa using hl
  unfold dashboardAvgConfidence jsMathRoundDiv?
  rw [if_neg hn, Option.getD_some, ratHalfUpKey _ _ hn, Nat.floor_div_eq_div]

/-- C10 (witness): on the non-empty mock history the statistic equals the
rounded mean of its confidence fields. -/
theorem c10_witness :
    dashboardAvgConfidence mockAnalyses =
      ⌊(((mockAnalyses.map fun a => a.confidence).sum : ℕ) : ℚ)
          / ((mockAnalyses.length : ℕ) : ℚ) + 1 / 2⌋₊ :=
  c10_avg_confidence.2 mockAnalyses (by decide)

end BugBuster
